import Mathlib

/-!
Verification of the authorization / authentication core of the
`myresto-shared` package against its specification.

The development shallowly embeds the TypeScript sources:

* `lib/config.ts` — `APP_CONFIG`, `getCurrentApp`, `isValidAppId`;
* `lib/supabase-auth.tsx` — the `useUser` session projection, and the
  `AuthProvider` session state (modelled as an event-driven state machine);
* `lib/authorization.tsx` — `useIsSuperAdmin`, `useAppRole`,
  `useSubscription` (their React `useState`/`useEffect` lifecycles are
  modelled as explicit state machines driven by lists of events), and the
  gate components `RequireAuth`, `RequirePro`, `RequireRole`.

JavaScript nullable values are embedded as `Option`; the `??` operator is
`Option.getD` / `Option.orElse`; React state is explicit record state; an
asynchronous supabase query in flight is a pending request carrying the
`cancelled` flag of the effect instance that issued it, and settling a
query is an explicit event.
-/

namespace MyResto

-- ===========================================================================
-- lib/config.ts
-- ===========================================================================

/-- Structure `AppInfo` from `lib/config.ts`.  `app` is kept as a `String`; validity
(being one of the eleven `AppId` union members) is the separate decidable
predicate `isValidAppId`, mirroring the TypeScript string-union type. -/
structure AppInfo where
  app : String
  name : String
  deriving Repr, DecidableEq

/-- The `APP_CONFIG` record from `lib/config.ts`, embedded as an association
list from hostname to `AppInfo` (production domains, `www` variants, and
Vercel preview domains, in source order). -/
def APP_CONFIG : List (String × AppInfo) := [
  ("myrestoevent.com", ⟨"event", "MyResto Event"⟩),
  ("myrestogarage.com", ⟨"garage", "MyResto Garage"⟩),
  ("myrestoclub.com", ⟨"club", "MyResto Club"⟩),
  ("myrestohub.com", ⟨"hub", "MyResto Hub"⟩),
  ("myrestogear.com", ⟨"gear", "MyResto Gear"⟩),
  ("myrestoparts.com", ⟨"parts", "MyResto Parts"⟩),
  ("myrestolife.com", ⟨"life", "MyResto Life"⟩),
  ("myrestorides.com", ⟨"rides", "MyResto Rides"⟩),
  ("myrestotrack.com", ⟨"track", "MyResto Track"⟩),
  ("myrestoplate.com", ⟨"plate", "MyResto Plate"⟩),
  ("myrestoshow.com", ⟨"show", "MyResto Show"⟩),
  ("www.myrestoevent.com", ⟨"event", "MyResto Event"⟩),
  ("www.myrestogarage.com", ⟨"garage", "MyResto Garage"⟩),
  ("www.myrestoclub.com", ⟨"club", "MyResto Club"⟩),
  ("www.myrestohub.com", ⟨"hub", "MyResto Hub"⟩),
  ("www.myrestogear.com", ⟨"gear", "MyResto Gear"⟩),
  ("www.myrestoparts.com", ⟨"parts", "MyResto Parts"⟩),
  ("www.myrestolife.com", ⟨"life", "MyResto Life"⟩),
  ("www.myrestorides.com", ⟨"rides", "MyResto Rides"⟩),
  ("www.myrestotrack.com", ⟨"track", "MyResto Track"⟩),
  ("www.myrestoplate.com", ⟨"plate", "MyResto Plate"⟩),
  ("www.myrestoshow.com", ⟨"show", "MyResto Show"⟩),
  ("myrestoevent.vercel.app", ⟨"event", "MyResto Event"⟩),
  ("myrestogarage.vercel.app", ⟨"garage", "MyResto Garage"⟩),
  ("myrestoclub.vercel.app", ⟨"club", "MyResto Club"⟩)]

/-- Predicate `isValidAppId` from `lib/config.ts`: membership in the list of the
eleven `AppId` union members. -/
def isValidAppId (value : String) : Bool :=
  ["event", "garage", "club", "hub", "gear",
   "parts", "life", "rides", "track", "plate", "show"].contains value

/-- The env-var fallback of `getCurrentApp` (`lib/config.ts` lines 95–96):
`if (envAppId && isValidAppId(envAppId)) return envAppId`.  `envAppId` is
`import.meta.env.VITE_APP_ID` (`none` models absent/undefined); JS
truthiness of the `envAppId &&` guard: the empty string is falsy. -/
def envFallback (envAppId : Option String) : Option String :=
  match envAppId with
  | some e => if e ≠ "" && isValidAppId e then some e else none
  | none => none

/-- Function `getCurrentApp` from `lib/config.ts`.  `hostname` is
`window.location.hostname` when a `window` object exists (`none` models a
non-browser context): an exact `APP_CONFIG` match returns that entry's
app, otherwise the env-var fallback runs. -/
def getCurrentApp (hostname : Option String) (envAppId : Option String) :
    Option String :=
  match hostname with
  | some h =>
    match (APP_CONFIG.lookup h) with
    | some entry => some entry.app
    | none => envFallback envAppId
  | none => envFallback envAppId

-- ===========================================================================
-- lib/supabase-auth.tsx : useUser session projection
-- ===========================================================================

/-- The `user_metadata` fields that `useUser` reads from the raw Supabase
user record.  All are nullable in the source. -/
structure UserMetadata where
  avatar_url : Option String
  first_name : Option String
  last_name : Option String
  full_name : Option String
  username : Option String
  deriving Repr, DecidableEq

/-- The raw Supabase `User` as consumed by `useUser`: id, e-mail,
`user_metadata` and `app_metadata`.  `app_metadata` is reduced to the one
field the authorization layer reads, the `role` claim. -/
structure RawUser where
  id : String
  email : String
  user_metadata : UserMetadata
  appRole : Option String
  deriving Repr, DecidableEq

/-- The projected user shape returned by `useUser` (only the fields the
authorization layer and the verified properties consume). -/
structure ProjectedUser where
  id : String
  emailAddress : String
  firstName : Option String
  lastName : Option String
  fullName : Option String
  imageUrl : Option String
  username : Option String
  publicMetadataRole : Option String
  deriving Repr, DecidableEq

/-- The generated-avatar URL from `useUser`
(`https://api.dicebear.com/7.x/avataaars/svg?seed=${u.id}`). -/
def dicebearUrl (id : String) : String :=
  "https://api.dicebear.com/7.x/avataaars/svg?seed=" ++ id

/-- Projection performed by `useUser` of a raw user (`lib/supabase-auth.tsx`
lines 141–155).  `imageUrl` keeps its JS nullability: it is
`meta.avatar_url ?? dicebear-url`, embedded with `Option.orElse`. -/
def projectUser (u : RawUser) : ProjectedUser :=
  { id := u.id
    emailAddress := u.email
    firstName := u.user_metadata.first_name
    lastName := u.user_metadata.last_name
    fullName := u.user_metadata.full_name
    imageUrl := u.user_metadata.avatar_url.orElse (fun _ => some (dicebearUrl u.id))
    username := u.user_metadata.username
    publicMetadataRole := u.appRole }

/-- Hook `useUser` over a nullable context user: `none` stays `none`
(signed-out), otherwise the projection. -/
def useUser (u : Option RawUser) : Option ProjectedUser :=
  u.map projectUser

/-- Hook `useIsSuperAdmin` from `lib/authorization.tsx`: reads
`publicMetadata.role === 'super_admin'` from the projected user; `false`
when signed out. -/
def useIsSuperAdmin (u : Option ProjectedUser) : Bool :=
  match u with
  | none => false
  | some user => user.publicMetadataRole == some "super_admin"

-- ===========================================================================
-- lib/authorization.tsx : Subscription row and useSubscription derivation
-- ===========================================================================

/-- The `Subscription` row interface from `lib/authorization.tsx` (the
fields the resolver logic reads; the remaining columns are carried for
fidelity of the row shape). -/
structure Subscription where
  id : String
  user_id : String
  plan : String
  status : String
  cancel_at_period_end : Bool
  deriving Repr, DecidableEq

/-- The hook result of `useSubscription` (`UseSubscriptionResult`). -/
structure UseSubscriptionResult where
  plan : String
  isPro : Bool
  isActive : Bool
  subscription : Option Subscription
  loading : Bool
  deriving Repr, DecidableEq

/-- The pure derivation at the bottom of `useSubscription`
(`lib/authorization.tsx` lines 199–203):
`plan = subscription?.plan ?? 'free'`,
`isActive = subscription?.status === 'active' || … === 'trialing'`,
`isPro = isSuperAdmin || (plan === 'pro' && isActive)`. -/
def useSubscriptionResult (isSuperAdmin : Bool) (subscription : Option Subscription)
    (loading : Bool) : UseSubscriptionResult :=
  let plan := (subscription.map (·.plan)).getD "free"
  let isActive := (subscription.map (·.status)) == some "active"
      || (subscription.map (·.status)) == some "trialing"
  let isPro := isSuperAdmin || (plan == "pro" && isActive)
  { plan := plan, isPro := isPro, isActive := isActive,
    subscription := subscription, loading := loading }

-- ===========================================================================
-- Supabase query boundary for `.single()`
-- ===========================================================================

/-- Outcome of the subscription store's singleton-row lookup, as the
external boundary distinguishes it (spec §6): a row, "not found", or a
transport error. -/
inductive SubLookup where
  | found (row : Subscription)
  | notFound
  | transportError (message : String)
  deriving Repr, DecidableEq

/-- The `{ data, error }` response shape that a supabase-js query promise
settles with (`error` reduced to its `message`). -/
structure QueryResponse (α : Type) where
  data : Option α
  error : Option String
  deriving Repr, DecidableEq

/-- How supabase-js `.single()` presents the lookup outcome to the caller:
zero rows is reported as an *error* (PostgREST code PGRST116, message
"JSON object requested, multiple (or no) rows returned"), exactly like a
transport failure; only a found row arrives as `data` with no error. -/
def singleResponse (outcome : SubLookup) : QueryResponse Subscription :=
  match outcome with
  | .found row => { data := some row, error := none }
  | .notFound =>
    { data := none,
      error := some "JSON object requested, multiple (or no) rows returned" }
  | .transportError m => { data := none, error := some m }

-- ===========================================================================
-- lib/authorization.tsx : gate components (pure render functions)
-- ===========================================================================

/-- A rendered React node, reduced to what the gates distinguish:
`nullNode` (render nothing) or a tagged node. -/
inductive ReactNode where
  | nullNode
  | node (tag : String)
  deriving Repr, DecidableEq

/-- Gate `RequireAuth` (`lib/authorization.tsx` lines 213–224).  `fallback`
defaults to `null` when the caller supplies none. -/
def RequireAuth (isLoaded isSignedIn : Bool) (children : ReactNode)
    (fallback : Option ReactNode) : ReactNode :=
  let fb := fallback.getD ReactNode.nullNode
  if !isLoaded then ReactNode.nullNode
  else if !isSignedIn then fb
  else children

/-- Gate `RequirePro` (`lib/authorization.tsx` lines 229–240): reads
`{ isPro, loading }` from `useSubscription`. -/
def RequirePro (sub : UseSubscriptionResult) (children : ReactNode)
    (fallback : Option ReactNode) : ReactNode :=
  let fb := fallback.getD ReactNode.nullNode
  if sub.loading then ReactNode.nullNode
  else if !sub.isPro then fb
  else children

-- ===========================================================================
-- lib/authorization.tsx : useAppRole state machine
-- ===========================================================================

/-- The `UserRole` row interface (`user_roles` table). -/
structure UserRole where
  id : String
  user_id : String
  app : String
  role : String
  granted_by : Option String
  deriving Repr, DecidableEq

/-- The role query issued by `useAppRole` (lines 115–119): select `role`
from `user_roles` filtered by `eq('user_id', userId)` and `eq('app', app)`. -/
def queryRoles (store : List UserRole) (userId app : String) : List String :=
  (store.filter (fun row => row.user_id == userId && row.app == app)).map (·.role)

/-- Reply of the role store boundary: rows (already projected to the
`role` column, with supabase's `data?.map(...) ?? []` applied) or an
error message. -/
inductive RolesReply where
  | rows (roles : List String)
  | failure (message : String)
  deriving Repr, DecidableEq

/-- An in-flight `useAppRole` query.  `cancelled` is the `cancelled` flag
of the effect instance that issued it (set by the effect cleanup);
`userId`/`app` are the values captured by the closure at issuance. -/
structure RoleReq where
  rid : Nat
  userId : String
  app : String
  cancelled : Bool
  deriving Repr, DecidableEq

/-- The React state of one mounted `useAppRole` hook, plus the identity
inputs it currently sees and the in-flight queries. -/
structure RoleState where
  userId : Option String
  app : Option String
  isSuperAdmin : Bool
  roles : List String
  loading : Bool
  pending : List RoleReq
  nextId : Nat
  deriving Repr, DecidableEq

/-- Events driving a mounted `useAppRole`: a dependency change
(`[userId, app, isSuperAdmin]` — effect cleanup then effect re-run), or an
in-flight query settling. -/
inductive RoleEv where
  | switch (userId : Option String) (app : Option String) (isSuperAdmin : Bool)
  | settle (rid : Nat) (reply : RolesReply)
  deriving Repr, DecidableEq

/-- Dependency change: the cleanup of the previous effect instance sets its
`cancelled` flag, then the effect body re-runs (lines 101–132):
super-admin short-circuit (no query), null user/app reset, or
`setLoading(true)` plus a fresh query — `roles` keeps its previous value
in the query branch. -/
def stepRoleSwitch (s : RoleState) (userId : Option String) (app : Option String)
    (su : Bool) : RoleState :=
  let pend := s.pending.map (fun r => { r with cancelled := true })
  let s' := { s with userId := userId, app := app, isSuperAdmin := su,
                     pending := pend }
  if su then
    { s' with loading := false }
  else
    match userId, app with
    | some uid, some a =>
      { s' with loading := true,
                pending := pend ++ [⟨s.nextId, uid, a, false⟩],
                nextId := s.nextId + 1 }
    | _, _ => { s' with roles := [], loading := false }

/-- A query settles (lines 120–129): a cancelled request is discarded
(`if (cancelled) return`); otherwise an error resolves to `[]` and a
success replaces `roles`, and `loading` becomes `false`. -/
def stepRoleSettle (s : RoleState) (rid : Nat) (reply : RolesReply) : RoleState :=
  match s.pending.find? (fun r => r.rid == rid) with
  | none => s
  | some req =>
    let s' := { s with pending := s.pending.filter (fun r => r.rid != rid) }
    if req.cancelled then s'
    else
      match reply with
      | .failure _ => { s' with roles := [], loading := false }
      | .rows rs => { s' with roles := rs, loading := false }

def stepRole (s : RoleState) (e : RoleEv) : RoleState :=
  match e with
  | .switch u a su => stepRoleSwitch s u a su
  | .settle rid reply => stepRoleSettle s rid reply

def runRole (s : RoleState) (evs : List RoleEv) : RoleState :=
  evs.foldl stepRole s

/-- Initial `useState` values of `useAppRole` (`roles = []`,
`loading = true`), before the first effect has run. -/
def roleInit (userId : Option String) (app : Option String) (su : Bool) : RoleState :=
  { userId := userId, app := app, isSuperAdmin := su,
    roles := [], loading := true, pending := [], nextId := 0 }

/-- A fresh mount: initial state followed by the first effect run. -/
def mountRole (userId : Option String) (app : Option String) (su : Bool) : RoleState :=
  stepRoleSwitch (roleInit userId app su) userId app su

/-- The `roles` field the hook returns (lines 134–139): super admins get
`['super_admin']` unconditionally. -/
def renderRoles (s : RoleState) : List String :=
  if s.isSuperAdmin then ["super_admin"] else s.roles

/-- The `loading` field the hook returns: `false` unconditionally for
super admins. -/
def renderRoleLoading (s : RoleState) : Bool :=
  if s.isSuperAdmin then false else s.loading

/-- The `hasRole` closure the hook returns: `() => true` for super admins,
otherwise `roles.includes(role)`. -/
def hasRole (s : RoleState) (role : String) : Bool :=
  if s.isSuperAdmin then true else s.roles.contains role

/-- Gate `RequireRole` (`lib/authorization.tsx` lines 245–260), applied to the
state of the `useAppRole` hook it consumes. -/
def RequireRole (role : String) (s : RoleState) (children : ReactNode)
    (fallback : Option ReactNode) : ReactNode :=
  let fb := fallback.getD ReactNode.nullNode
  if renderRoleLoading s then ReactNode.nullNode
  else if !(hasRole s role) then fb
  else children

-- ===========================================================================
-- lib/authorization.tsx : useSubscription state machine
-- ===========================================================================

/-- An in-flight `useSubscription` query (the `.single()` promise of one
effect instance). -/
structure SubReq where
  rid : Nat
  userId : String
  cancelled : Bool
  deriving Repr, DecidableEq

/-- The React state of one mounted `useSubscription` hook.  `loggedErrors`
counts `console.error` calls. -/
structure SubState where
  userId : Option String
  subscription : Option Subscription
  loading : Bool
  pending : List SubReq
  nextId : Nat
  loggedErrors : Nat
  deriving Repr, DecidableEq

/-- Events driving a mounted `useSubscription`: a `[userId]` dependency
change, or an in-flight `.single()` query settling with a store outcome. -/
inductive SubEv where
  | switch (userId : Option String)
  | settle (rid : Nat) (outcome : SubLookup)
  deriving Repr, DecidableEq

/-- Dependency change (lines 170–197): cleanup cancels the previous
effect's query; then the effect clears state for a null user, or sets
`loading` and issues one `.single()` query. -/
def stepSubSwitch (s : SubState) (userId : Option String) : SubState :=
  let pend := s.pending.map (fun r => { r with cancelled := true })
  let s' := { s with userId := userId, pending := pend }
  match userId with
  | none => { s' with subscription := none, loading := false }
  | some uid =>
    { s' with loading := true,
              pending := pend ++ [⟨s.nextId, uid, false⟩],
              nextId := s.nextId + 1 }

/-- A `.single()` query settles (lines 185–194): cancelled requests are
discarded; otherwise any `error` in the response — including the
PGRST116 "no row" error that `.single()` produces — is logged via
`console.error` and resolves `subscription` to `null`; a data row is
stored.  `loading` becomes `false` either way. -/
def stepSubSettle (s : SubState) (rid : Nat) (outcome : SubLookup) : SubState :=
  match s.pending.find? (fun r => r.rid == rid) with
  | none => s
  | some req =>
    let s' := { s with pending := s.pending.filter (fun r => r.rid != rid) }
    if req.cancelled then s'
    else
      let resp := singleResponse outcome
      match resp.error with
      | some _ =>
        { s' with loggedErrors := s'.loggedErrors + 1,
                  subscription := none, loading := false }
      | none => { s' with subscription := resp.data, loading := false }

def stepSub (s : SubState) (e : SubEv) : SubState :=
  match e with
  | .switch u => stepSubSwitch s u
  | .settle rid outcome => stepSubSettle s rid outcome

def runSub (s : SubState) (evs : List SubEv) : SubState :=
  evs.foldl stepSub s

/-- Initial `useState` values of `useSubscription` (`subscription = null`,
`loading = true`), before the first effect has run. -/
def subInit (userId : Option String) : SubState :=
  { userId := userId, subscription := none, loading := true,
    pending := [], nextId := 0, loggedErrors := 0 }

/-- A fresh mount: initial state followed by the first effect run. -/
def mountSub (userId : Option String) : SubState :=
  stepSubSwitch (subInit userId) userId

/-- The hook result `useSubscription` returns for a machine state
(`isSuperAdmin` comes from `useIsSuperAdmin`, which is not part of the
effect's dependencies). -/
def renderSub (isSuperAdmin : Bool) (s : SubState) : UseSubscriptionResult :=
  useSubscriptionResult isSuperAdmin s.subscription s.loading

-- ===========================================================================
-- lib/supabase-auth.tsx : AuthProvider session machine
-- ===========================================================================

/-- The state of a mounted `AuthProvider` together with the supabase-js
auth client it talks to.  `providerSession` is the client's current
session; `ctxSession` is the React `session` state (the value context
consumers read); `getSessionPending` is the initial
`supabase.auth.getSession()` promise being in flight.
`signOutNotified` / `signOutResolved` track an in-progress `signOut()`
call: supabase-js delivers the `SIGNED_OUT` event to `onAuthStateChange`
subscribers (which run `setSession(null)`) before the `signOut()` promise
resolves, so a resolve step is only enabled once the notification has been
delivered. -/
structure AuthState where
  providerSession : Option String
  ctxSession : Option String
  isLoaded : Bool
  getSessionPending : Bool
  signOutPending : Bool
  signOutNotified : Bool
  signOutResolved : Bool
  deriving Repr, DecidableEq

/-- Events of the session machine.  `authChange` is the provider emitting a
session change (sign-in event delivery or silent token refresh) to the
`onAuthStateChange` subscriber while a provider session exists. -/
inductive AuthEv where
  | getSessionResolve
  | authChange (s : String)
  | signOutCall
  | signOutNotify
  | signOutResolve
  deriving Repr, DecidableEq

/-- One step of the session machine.  An event whose guard does not hold is
a no-op (the runtime cannot deliver it). -/
def stepAuth (s : AuthState) (e : AuthEv) : AuthState :=
  match e with
  | .getSessionResolve =>
    if s.getSessionPending then
      { s with ctxSession := s.providerSession, isLoaded := true,
               getSessionPending := false }
    else s
  | .authChange sess =>
    if s.providerSession.isSome then
      { s with providerSession := some sess, ctxSession := some sess }
    else s
  | .signOutCall =>
    { s with signOutPending := true, signOutNotified := false,
             signOutResolved := false }
  | .signOutNotify =>
    if s.signOutPending && !s.signOutNotified then
      { s with providerSession := none, ctxSession := none,
               signOutNotified := true }
    else s
  | .signOutResolve =>
    if s.signOutPending && s.signOutNotified then
      { s with signOutResolved := true, signOutPending := false }
    else s

def runAuth (s : AuthState) (evs : List AuthEv) : AuthState :=
  evs.foldl stepAuth s

/-- A freshly mounted `AuthProvider` over a client whose stored session is
`initial`: React state starts at `session = null`, `isLoaded = false`, and
the initial `getSession()` call is in flight (lines 70–90). -/
def authMount (initial : Option String) : AuthState :=
  { providerSession := initial, ctxSession := none, isLoaded := false,
    getSessionPending := true, signOutPending := false,
    signOutNotified := false, signOutResolved := false }

/-- The `isSignedIn` value `useAuth` exposes: `!!session` (line 105). -/
def isSignedIn (s : AuthState) : Bool :=
  s.ctxSession.isSome

/-- Invariant of the session machine: once a `signOut()` call has been
notified or has resolved, neither the provider nor the React context holds
a session. -/
def AuthInv (s : AuthState) : Prop :=
  (s.signOutPending = true → s.signOutNotified = true →
    s.providerSession = none ∧ s.ctxSession = none)
  ∧ (s.signOutResolved = true → s.providerSession = none ∧ s.ctxSession = none)

-- ===========================================================================
-- Theorems
-- ===========================================================================

/-- Helper: a successful association-list lookup yields a member pair. -/
theorem mem_of_lookup {l : List (String × AppInfo)} {k : String} {v : AppInfo}
    (h : l.lookup k = some v) : (k, v) ∈ l := by
  induction l with
  | nil => simp [List.lookup] at h
  | cons p t ih =>
    obtain ⟨a, b⟩ := p
    simp only [List.lookup] at h
    split at h
    next heq =>
      obtain rfl : b = v := by simpa using h
      obtain rfl : k = a := eq_of_beq heq
      exact List.mem_cons_self _ _
    next => exact List.mem_cons_of_mem _ (ih h)

/-- C4: for every identity with the privileged-role flag set, `isPro` is
true regardless of the subscription's plan and status (hence also for a
"pro"/"canceled" row and for a missing row, both instances of the
quantified `sub`); otherwise `isPro` is true exactly when the row exists
with plan `"pro"` and status in `{active, trialing}`. -/
theorem claim_C4 (sub : Option Subscription) (loading : Bool) :
    (useSubscriptionResult true sub loading).isPro = true
    ∧ ((useSubscriptionResult false sub loading).isPro = true ↔
        ∃ row, sub = some row ∧ row.plan = "pro" ∧
          (row.status = "active" ∨ row.status = "trialing")) := by
  refine ⟨by simp [useSubscriptionResult], ?_⟩
  cases sub with
  | none => simp [useSubscriptionResult]
  | some row => simp [useSubscriptionResult]

/-- C8: `RequireAuth` renders nothing while `isLoaded` is false; once
loaded it renders the children exactly when signed in and the fallback
otherwise; with no fallback supplied it renders nothing (the function is
total — it never throws). -/
theorem claim_C8 (children : ReactNode) (fallback : Option ReactNode)
    (signedIn : Bool) :
    RequireAuth false signedIn children fallback = ReactNode.nullNode
    ∧ RequireAuth true true children fallback = children
    ∧ RequireAuth true false children fallback = fallback.getD ReactNode.nullNode
    ∧ RequireAuth true false children none = ReactNode.nullNode := by
  refine ⟨rfl, rfl, rfl, rfl⟩

/-- C9: `getCurrentApp` resolves by fixed precedence — an exact hostname
match in `APP_CONFIG` wins; otherwise a valid `VITE_APP_ID` value is used;
otherwise the result is `null`; and every non-`null` result is one of the
eleven valid `AppId` strings. -/
theorem claim_C9 :
    (∀ (h : String) (entry : AppInfo) (envAppId : Option String),
       APP_CONFIG.lookup h = some entry →
       getCurrentApp (some h) envAppId = some entry.app)
    ∧ (∀ (hostname envAppId : Option String),
       (∀ h, hostname = some h → APP_CONFIG.lookup h = none) →
       (∀ e, envAppId = some e → isValidAppId e = false) →
       getCurrentApp hostname envAppId = none)
    ∧ (∀ (h e : String),
       APP_CONFIG.lookup h = none → isValidAppId e = true →
       getCurrentApp (some h) (some e) = some e)
    ∧ (∀ (hostname envAppId : Option String) (a : String),
       getCurrentApp hostname envAppId = some a → isValidAppId a = true) := by
  have hvalid : ∀ p ∈ APP_CONFIG, isValidAppId p.2.app = true := by decide
  have hfb_none : ∀ (envAppId : Option String),
      (∀ e, envAppId = some e → isValidAppId e = false) →
      envFallback envAppId = none := by
    intro envAppId henv
    cases envAppId with
    | none => rfl
    | some e => simp [envFallback, henv e rfl]
  have hfb_valid : ∀ (envAppId : Option String) (a : String),
      envFallback envAppId = some a → isValidAppId a = true := by
    intro envAppId a hres
    cases envAppId with
    | none => exact absurd hres (by simp [envFallback])
    | some e =>
      simp only [envFallback] at hres
      split at hres
      next heq =>
        obtain rfl : e = a := by simpa using hres
        have h' := heq
        simp only [Bool.and_eq_true] at h'
        exact h'.2
      next => exact absurd hres (by simp)
  refine ⟨?_, ?_, ?_, ?_⟩
  · intro h entry envAppId hlook
    simp [getCurrentApp, hlook]
  · intro hostname envAppId hhost henv
    cases hostname with
    | none => exact hfb_none envAppId henv
    | some h =>
      have hl := hhost h rfl
      simp only [getCurrentApp, hl]
      exact hfb_none envAppId henv
  · intro h e hl he
    have hne : e ≠ "" := by
      intro h0
      rw [h0] at he
      exact absurd he (by decide)
    simp [getCurrentApp, hl, envFallback, he, hne]
  · intro hostname envAppId a hres
    cases hostname with
    | none => exact hfb_valid envAppId a hres
    | some h =>
      simp only [getCurrentApp] at hres
      rcases hl : APP_CONFIG.lookup h with _ | entry
      · rw [hl] at hres
        exact hfb_valid envAppId a hres
      · rw [hl] at hres
        obtain rfl : entry.app = a := by simpa using hres
        exact hvalid (h, entry) (mem_of_lookup hl)

/-- Witness for C9 at concrete inputs: a known production hostname beats
any env value, and with an unknown hostname a valid env value is used. -/
theorem claim_C9_witness :
    (APP_CONFIG.lookup "myrestogarage.com" = some ⟨"garage", "MyResto Garage"⟩
      ∧ getCurrentApp (some "myrestogarage.com") (some "club") = some "garage")
    ∧ (APP_CONFIG.lookup "localhost" = none ∧ isValidAppId "club" = true
      ∧ getCurrentApp (some "localhost") (some "club") = some "club") :=
  ⟨⟨by decide,
    claim_C9.1 "myrestogarage.com" ⟨"garage", "MyResto Garage"⟩ (some "club")
      (by decide)⟩,
   ⟨by decide, by decide,
    claim_C9.2.2.1 "localhost" "club" (by decide) (by decide)⟩⟩

/-- C10: the projection of every signed-in user has a non-null `imageUrl`;
when the provider metadata carries no `avatar_url`, the deterministic
dicebear URL seeded with the user id is substituted. -/
theorem claim_C10 (u : RawUser) :
    useUser (some u) = some (projectUser u)
    ∧ (projectUser u).imageUrl ≠ none
    ∧ (u.user_metadata.avatar_url = none →
        (projectUser u).imageUrl = some (dicebearUrl u.id))
    ∧ (∀ a, u.user_metadata.avatar_url = some a →
        (projectUser u).imageUrl = some a) := by
  refine ⟨rfl, ?_, ?_, ?_⟩
  · cases h : u.user_metadata.avatar_url with
    | none => simp [projectUser, h, Option.orElse]
    | some a => simp [projectUser, h, Option.orElse]
  · intro h
    simp [projectUser, h, Option.orElse]
  · intro a h
    simp [projectUser, h, Option.orElse]

/-- Witness for C10 at a concrete user with no `avatar_url`. -/
theorem claim_C10_witness :
    (⟨"u1", "a@b.c", ⟨none, none, none, none, none⟩, none⟩ :
      RawUser).user_metadata.avatar_url = none
    ∧ (projectUser ⟨"u1", "a@b.c", ⟨none, none, none, none, none⟩, none⟩).imageUrl
        = some (dicebearUrl "u1") :=
  ⟨rfl, (claim_C10 ⟨"u1", "a@b.c", ⟨none, none, none, none, none⟩, none⟩).2.2.1 rfl⟩

/-- C5: for every identity with the privileged-role flag set (in whatever
internal state the hook is), the hook returns `roles = ['super_admin']`
and `loading = false`, `hasRole` is true for every role, and the effect
issues no network query (a hard short-circuit). -/
theorem claim_C5 (s : RoleState) (h : s.isSuperAdmin = true) (r : String)
    (userId : Option String) (app : Option String) :
    renderRoles s = ["super_admin"]
    ∧ renderRoleLoading s = false
    ∧ hasRole s r = true
    ∧ (stepRoleSwitch s userId app true).pending.length = s.pending.length := by
  refine ⟨by simp [renderRoles, h], by simp [renderRoleLoading, h],
          by simp [hasRole, h], ?_⟩
  simp [stepRoleSwitch]

/-- Witness for C5 on a freshly mounted hook for a privileged identity. -/
theorem claim_C5_witness :
    (mountRole (some "u1") (some "event") true).isSuperAdmin = true
    ∧ (renderRoles (mountRole (some "u1") (some "event") true) = ["super_admin"]
      ∧ renderRoleLoading (mountRole (some "u1") (some "event") true) = false
      ∧ hasRole (mountRole (some "u1") (some "event") true) "editor" = true
      ∧ (stepRoleSwitch (mountRole (some "u1") (some "event") true)
          (some "u1") (some "event") true).pending.length
        = (mountRole (some "u1") (some "event") true).pending.length) :=
  ⟨by decide, claim_C5 _ (by decide) "editor" (some "u1") (some "event")⟩

/-- C1 (amended): the resolver does not distinguish the "no row" outcome
from a transport error — `.single()` reports "no row" as an error, and the
settle handler maps the two outcomes to identical states: plan `"free"`,
`subscription = null`, `loading = false`, and one logged error in both
cases. -/
theorem claim_C1 (s : SubState) (rid : Nat) (msg : String) :
    stepSubSettle s rid SubLookup.notFound
      = stepSubSettle s rid (SubLookup.transportError msg)
    ∧ ((renderSub false (runSub (mountSub (some "u1"))
          [SubEv.settle 0 SubLookup.notFound])).plan = "free"
      ∧ (runSub (mountSub (some "u1"))
          [SubEv.settle 0 SubLookup.notFound]).subscription = none
      ∧ (runSub (mountSub (some "u1"))
          [SubEv.settle 0 SubLookup.notFound]).loading = false
      ∧ (runSub (mountSub (some "u1"))
          [SubEv.settle 0 SubLookup.notFound]).loggedErrors = 1) := by
  constructor
  · unfold stepSubSettle
    cases s.pending.find? (fun r => r.rid == rid) with
    | none => rfl
    | some req =>
      obtain ⟨i, u, c⟩ := req
      cases c <;> rfl
  · exact ⟨by decide, by decide, by decide, by decide⟩

/-- C1 counterexample: a signed-in identity whose subscription lookup
returns "no row" resolves to plan `"free"` with `loading = false`, but a
`console.error` IS logged (the claim asserts no logged error on the
not-found outcome). -/
theorem claim_C1_counterexample :
    (renderSub false (runSub (mountSub (some "u1"))
        [SubEv.settle 0 SubLookup.notFound])).plan = "free"
    ∧ (runSub (mountSub (some "u1"))
        [SubEv.settle 0 SubLookup.notFound]).loading = false
    ∧ ¬ ((runSub (mountSub (some "u1"))
        [SubEv.settle 0 SubLookup.notFound]).loggedErrors = 0) := by
  decide

/-- Helper: a store with no row for `uid` answers the scoped role query
with the empty list. -/
theorem queryRoles_eq_nil {store : List UserRole} {uid : String}
    (h : ∀ row ∈ store, ¬ (row.user_id = uid)) (app : String) :
    queryRoles store uid app = [] := by
  unfold queryRoles
  have hfilter : store.filter (fun row => row.user_id == uid && row.app == app) = [] := by
    rw [List.filter_eq_nil_iff]
    intro row hrow
    simp [h row hrow]
  rw [hfilter]
  rfl

/-- Helper: settling a query never changes the super-admin flag. -/
theorem stepRoleSettle_su (s : RoleState) (rid : Nat) (reply : RolesReply) :
    (stepRoleSettle s rid reply).isSuperAdmin = s.isSuperAdmin := by
  unfold stepRoleSettle
  cases s.pending.find? (fun r => r.rid == rid) with
  | none => rfl
  | some req =>
    obtain ⟨i, u, a, c⟩ := req
    cases c with
    | true => rfl
    | false => cases reply <;> rfl

/-- Helper: settling a query that delivers `[]` keeps empty roles empty. -/
theorem stepRoleSettle_roles_nil {s : RoleState} (h : s.roles = []) (rid : Nat) :
    (stepRoleSettle s rid (RolesReply.rows [])).roles = [] := by
  unfold stepRoleSettle
  cases s.pending.find? (fun r => r.rid == rid) with
  | none => exact h
  | some req =>
    obtain ⟨i, u, a, c⟩ := req
    cases c <;> simp [h]

/-- Helper: from a state with empty roles and no privileged flag, any
sequence of settles delivering `[]` keeps roles empty. -/
theorem runRole_settles_nil {s : RoleState} (h : s.roles = [])
    (hsu : s.isSuperAdmin = false) (rids : List Nat) :
    (runRole s (rids.map (fun i => RoleEv.settle i (RolesReply.rows [])))).roles = []
    ∧ (runRole s (rids.map (fun i =>
        RoleEv.settle i (RolesReply.rows [])))).isSuperAdmin = false := by
  induction rids generalizing s with
  | nil => exact ⟨h, hsu⟩
  | cons i t ih =>
    exact ih (stepRoleSettle_roles_nil h i) ((stepRoleSettle_su s i _).trans hsu)

/-- C2 (amended): (i) when the pending query for an identity with no grant
settles with the store's (empty) scoped answer, `hasRole(r)` is false for
every role `r`; and (ii) on a fresh mount for such an identity, with every
settle delivering the store's scoped answer and no identity switch,
`hasRole(r)` is false at every observable point — any prefix of such a
trace is again such a trace, so the quantification over `rids` covers
every intermediate state, including the in-flight window.  (The original
claim also covers the in-flight window right after an identity *switch*,
where the code keeps the previous identity's roles; see the
counterexample.) -/
theorem claim_C2 :
    (∀ (store : List UserRole) (s : RoleState) (rid : Nat) (req : RoleReq)
       (r : String),
       s.pending.find? (fun x => x.rid == rid) = some req →
       req.cancelled = false →
       s.isSuperAdmin = false →
       (∀ row ∈ store, ¬ (row.user_id = req.userId)) →
       hasRole (stepRoleSettle s rid
         (RolesReply.rows (queryRoles store req.userId req.app))) r = false)
    ∧ (∀ (store : List UserRole) (uid app r : String) (rids : List Nat),
       (∀ row ∈ store, ¬ (row.user_id = uid)) →
       hasRole (runRole (mountRole (some uid) (some app) false)
         (rids.map (fun i =>
           RoleEv.settle i (RolesReply.rows (queryRoles store uid app))))) r
         = false) := by
  constructor
  · intro store s rid req r hfind hcanc hsu hstore
    rw [queryRoles_eq_nil hstore]
    unfold hasRole stepRoleSettle
    rw [hfind]
    simp [hcanc, hsu]
  · intro store uid app r rids hstore
    rw [queryRoles_eq_nil hstore]
    have hmr : (mountRole (some uid) (some app) false).roles = [] := rfl
    have hms : (mountRole (some uid) (some app) false).isSuperAdmin = false := rfl
    obtain ⟨h1, h2⟩ := runRole_settles_nil hmr hms rids
    unfold hasRole
    rw [h1, h2]
    simp

/-- Witness for C2 (amended) at a concrete store: after the settle for an
ungranted identity, `hasRole` is false. -/
theorem claim_C2_witness :
    (∀ row ∈ ([⟨"r1", "u1", "event", "editor", none⟩] : List UserRole),
      ¬ (row.user_id = "u2"))
    ∧ hasRole (runRole (mountRole (some "u2") (some "event") false)
        ([0].map (fun i => RoleEv.settle i (RolesReply.rows
          (queryRoles [⟨"r1", "u1", "event", "editor", none⟩] "u2" "event")))))
        "editor" = false :=
  ⟨by decide,
   claim_C2.2 [⟨"r1", "u1", "event", "editor", none⟩] "u2" "event" "editor" [0]
     (by decide)⟩

/-- C2 counterexample: identity `u2` has no grant and no privileged flag,
yet while its role query is in flight (right after switching from `u1`,
whose roles had resolved to `["editor"]`), `hasRole("editor")` is still
true — the stale-while-revalidate window contradicts "false at every
observable point". -/
theorem claim_C2_counterexample :
    (∀ row ∈ ([⟨"r1", "u1", "event", "editor", none⟩] : List UserRole),
      ¬ (row.user_id = "u2"))
    ∧ (runRole (mountRole (some "u1") (some "event") false)
        [RoleEv.settle 0 (RolesReply.rows
           (queryRoles [⟨"r1", "u1", "event", "editor", none⟩] "u1" "event")),
         RoleEv.switch (some "u2") (some "event") false]).userId = some "u2"
    ∧ (runRole (mountRole (some "u1") (some "event") false)
        [RoleEv.settle 0 (RolesReply.rows
           (queryRoles [⟨"r1", "u1", "event", "editor", none⟩] "u1" "event")),
         RoleEv.switch (some "u2") (some "event") false]).isSuperAdmin = false
    ∧ renderRoleLoading (runRole (mountRole (some "u1") (some "event") false)
        [RoleEv.settle 0 (RolesReply.rows
           (queryRoles [⟨"r1", "u1", "event", "editor", none⟩] "u1" "event")),
         RoleEv.switch (some "u2") (some "event") false]) = true
    ∧ hasRole (runRole (mountRole (some "u1") (some "event") false)
        [RoleEv.settle 0 (RolesReply.rows
           (queryRoles [⟨"r1", "u1", "event", "editor", none⟩] "u1" "event")),
         RoleEv.switch (some "u2") (some "event") false]) "editor" = true := by
  decide

/-- C6: under rapid identity switching, a superseded query's late result is
discarded, never applied.  Query A (rid 0) is issued for identity `x`, the
identity switches to `y` issuing query B (rid 1), B settles first, then A
settles: the role resolver's final roles are exactly B's result for every
possible A result, and the subscription resolver's final observable state
(with both settles) equals the state with only B's settle, for every
possible pair of outcomes. -/
theorem claim_C6 (rB : List String) (rA : RolesReply) (oA oB : SubLookup) :
    ((runRole (mountRole (some "x") (some "event") false)
        [RoleEv.switch (some "y") (some "event") false,
         RoleEv.settle 1 (RolesReply.rows rB),
         RoleEv.settle 0 rA]).roles = rB
      ∧ (runRole (mountRole (some "x") (some "event") false)
        [RoleEv.switch (some "y") (some "event") false,
         RoleEv.settle 1 (RolesReply.rows rB),
         RoleEv.settle 0 rA]).loading = false
      ∧ (runRole (mountRole (some "x") (some "event") false)
        [RoleEv.switch (some "y") (some "event") false,
         RoleEv.settle 1 (RolesReply.rows rB),
         RoleEv.settle 0 rA]).userId = some "y")
    ∧ ((runSub (mountSub (some "x"))
        [SubEv.switch (some "y"), SubEv.settle 1 oB,
         SubEv.settle 0 oA]).subscription
        = (runSub (mountSub (some "x"))
            [SubEv.switch (some "y"), SubEv.settle 1 oB]).subscription
      ∧ (runSub (mountSub (some "x"))
        [SubEv.switch (some "y"), SubEv.settle 1 oB,
         SubEv.settle 0 oA]).loading
        = (runSub (mountSub (some "x"))
            [SubEv.switch (some "y"), SubEv.settle 1 oB]).loading
      ∧ (runSub (mountSub (some "x"))
        [SubEv.switch (some "y"), SubEv.settle 1 oB,
         SubEv.settle 0 oA]).loggedErrors
        = (runSub (mountSub (some "x"))
            [SubEv.switch (some "y"), SubEv.settle 1 oB]).loggedErrors) := by
  refine ⟨⟨rfl, rfl, rfl⟩, ?_⟩
  cases oB <;> exact ⟨rfl, rfl, rfl⟩

/-- C7: the role query is scoped by both the user id and the application:
every role it returns comes from a row matching `(uid, appB)`; hence a
role `role` granted to `uid` only in application `appA ≠ appB` is absent
from the query result for `appB`, `hasRole(role)` is false once that query
settles, and the `RequireRole` gate evaluated in `appB` renders the
fallback (the privileged short-circuit aside, which issues no query at
all). -/
theorem claim_C7 (store : List UserRole) (uid appA appB role : String)
    (children fallback : ReactNode)
    (hAB : ¬ (appA = appB))
    (hOnlyA : ∀ row ∈ store, row.user_id = uid → row.role = role →
      row.app = appA) :
    (∀ x ∈ queryRoles store uid appB,
        ∃ row ∈ store, row.user_id = uid ∧ row.app = appB ∧ row.role = x)
    ∧ (queryRoles store uid appB).contains role = false
    ∧ hasRole (stepRoleSettle (mountRole (some uid) (some appB) false) 0
        (RolesReply.rows (queryRoles store uid appB))) role = false
    ∧ RequireRole role (stepRoleSettle (mountRole (some uid) (some appB) false) 0
        (RolesReply.rows (queryRoles store uid appB))) children (some fallback)
      = fallback := by
  have hscoped : ∀ x ∈ queryRoles store uid appB,
      ∃ row ∈ store, row.user_id = uid ∧ row.app = appB ∧ row.role = x := by
    intro x hx
    unfold queryRoles at hx
    simp only [List.mem_map, List.mem_filter, Bool.and_eq_true, beq_iff_eq] at hx
    obtain ⟨row, ⟨hrow, hu, ha⟩, hr⟩ := hx
    exact ⟨row, hrow, hu, ha, hr⟩
  have habsent : (queryRoles store uid appB).contains role = false := by
    by_contra hcon
    rw [Bool.not_eq_false] at hcon
    have hmem : role ∈ queryRoles store uid appB := by
      simpa using hcon
    obtain ⟨row, hrow, hu, ha, hr⟩ := hscoped role hmem
    exact hAB ((hOnlyA row hrow hu hr).symm.trans ha)
  have hstate : hasRole (stepRoleSettle (mountRole (some uid) (some appB) false) 0
      (RolesReply.rows (queryRoles store uid appB))) role = false := by
    unfold hasRole
    simp only [stepRoleSettle, mountRole, roleInit, stepRoleSwitch]
    simpa using habsent
  refine ⟨hscoped, habsent, hstate, ?_⟩
  unfold RequireRole
  rw [hstate]
  simp only [stepRoleSettle, mountRole, roleInit, stepRoleSwitch, renderRoleLoading]
  simp

/-- Witness for C7: a grant of `editor` to `u2` in app `event` does not
satisfy an `editor` gate evaluated in app `club`. -/
theorem claim_C7_witness :
    ¬ ("event" = "club")
    ∧ (∀ row ∈ ([⟨"r1", "u2", "event", "editor", none⟩] : List UserRole),
        row.user_id = "u2" → row.role = "editor" → row.app = "event")
    ∧ ((∀ x ∈ queryRoles [⟨"r1", "u2", "event", "editor", none⟩] "u2" "club",
        ∃ row ∈ ([⟨"r1", "u2", "event", "editor", none⟩] : List UserRole),
          row.user_id = "u2" ∧ row.app = "club" ∧ row.role = x)
      ∧ (queryRoles [⟨"r1", "u2", "event", "editor", none⟩] "u2" "club").contains
          "editor" = false
      ∧ hasRole (stepRoleSettle (mountRole (some "u2") (some "club") false) 0
          (RolesReply.rows
            (queryRoles [⟨"r1", "u2", "event", "editor", none⟩] "u2" "club")))
          "editor" = false
      ∧ RequireRole "editor"
          (stepRoleSettle (mountRole (some "u2") (some "club") false) 0
            (RolesReply.rows
              (queryRoles [⟨"r1", "u2", "event", "editor", none⟩] "u2" "club")))
          (ReactNode.node "child") (some (ReactNode.node "fb"))
        = ReactNode.node "fb") :=
  ⟨by decide, by decide,
   claim_C7 [⟨"r1", "u2", "event", "editor", none⟩] "u2" "event" "club" "editor"
     (ReactNode.node "child") (ReactNode.node "fb") (by decide) (by decide)⟩

/-- Helper: every step of the session machine preserves `AuthInv`. -/
theorem authInv_step (s : AuthState) (e : AuthEv) (h : AuthInv s) :
    AuthInv (stepAuth s e) := by
  obtain ⟨h1, h2⟩ := h
  cases e with
  | getSessionResolve =>
    simp only [stepAuth]
    by_cases hp : s.getSessionPending = true
    · rw [if_pos hp]
      exact ⟨fun hp' hn' => ⟨(h1 hp' hn').1, (h1 hp' hn').1⟩,
             fun hr => ⟨(h2 hr).1, (h2 hr).1⟩⟩
    · rw [if_neg hp]
      exact ⟨h1, h2⟩
  | authChange sess =>
    simp only [stepAuth]
    by_cases hsome : s.providerSession.isSome = true
    · rw [if_pos hsome]
      refine ⟨fun hp hn => ?_, fun hr => ?_⟩
      · rw [(h1 hp hn).1] at hsome
        exact absurd hsome (by simp)
      · rw [(h2 hr).1] at hsome
        exact absurd hsome (by simp)
    · rw [if_neg hsome]
      exact ⟨h1, h2⟩
  | signOutCall =>
    simp only [stepAuth]
    exact ⟨fun _ hn => absurd hn (by simp), fun hr => absurd hr (by simp)⟩
  | signOutNotify =>
    simp only [stepAuth]
    by_cases hg : (s.signOutPending && !s.signOutNotified) = true
    · rw [if_pos hg]
      exact ⟨fun _ _ => ⟨rfl, rfl⟩, fun _ => ⟨rfl, rfl⟩⟩
    · rw [if_neg hg]
      exact ⟨h1, h2⟩
  | signOutResolve =>
    simp only [stepAuth]
    by_cases hg : (s.signOutPending && s.signOutNotified) = true
    · rw [if_pos hg]
      rw [Bool.and_eq_true] at hg
      have hsess := h1 hg.1 hg.2
      exact ⟨fun hp _ => absurd hp (by simp), fun _ => hsess⟩
    · rw [if_neg hg]
      exact ⟨h1, h2⟩

/-- Helper: `AuthInv` holds of every state reachable by a run. -/
theorem authInv_run (s : AuthState) (evs : List AuthEv) (h : AuthInv s) :
    AuthInv (runAuth s evs) := by
  induction evs generalizing s with
  | nil => exact h
  | cons e t ih => exact ih (stepAuth s e) (authInv_step s e h)

/-- C3: in every run of the session machine from a fresh `AuthProvider`
mount — with the supabase-js ordering contract that the `SIGNED_OUT`
notification reaches the `onAuthStateChange` subscriber (which sets the
context session to null) before the `signOut()` promise resolves — any
state in which `signOut()` has resolved reports `isSignedIn = false`:
there is no window where `signOut()` has resolved but the identity
projection still reports signed-in. -/
theorem claim_C3 (initial : Option String) (evs : List AuthEv)
    (h : (runAuth (authMount initial) evs).signOutResolved = true) :
    isSignedIn (runAuth (authMount initial) evs) = false := by
  have hinv : AuthInv (runAuth (authMount initial) evs) :=
    authInv_run (authMount initial) evs
      ⟨fun hp _ => absurd hp (by simp [authMount]),
       fun hr => absurd hr (by simp [authMount])⟩
  rw [isSignedIn, (hinv.2 h).2]
  rfl

/-- Witness for C3: a concrete run — session loads, `signOut()` is called,
the null-session notification is delivered, the call resolves — ends
signed out. -/
theorem claim_C3_witness :
    (runAuth (authMount (some "sess"))
      [AuthEv.getSessionResolve, AuthEv.signOutCall, AuthEv.signOutNotify,
       AuthEv.signOutResolve]).signOutResolved = true
    ∧ isSignedIn (runAuth (authMount (some "sess"))
      [AuthEv.getSessionResolve, AuthEv.signOutCall, AuthEv.signOutNotify,
       AuthEv.signOutResolve]) = false :=
  ⟨by decide, claim_C3 (some "sess") _ (by decide)⟩

end MyResto
